import Mathlib

/-!
Shallow embedding of `src/report.py`, a Freqtrade-to-Telegram status
reporter.  The embedding covers the JSON data model the script consumes,
the three field extractors (`extract_status`, `extract_profit`,
`extract_balance`), the pairlist formatter (`format_pairlist`), the
whitelist fetcher (`fetch_whitelist`), the Telegram send guard
(`send_telegram_message`), the report cycle (`run_report`) and the
retry loop of `main`.  Network calls are modelled by an explicit world
(endpoint-to-response function plus a send outcome), and the observable
network activity of a run is collected as an event trace.
-/

namespace FreScan

/-- JSON numbers as decoded by Python `json.loads`: `int` or `float`.
A float is modelled as the exact rational `n / d` (with `d > 0`; a
Python decimal literal maps to its exact value, e.g. `0.0537` to
`537 / 10 ^ 4`).  The fraction is kept as a raw numerator/denominator
pair so that all arithmetic is `Int`/`Nat` arithmetic. -/
inductive JNum where
  | int (i : Int)
  | float (n : Int) (d : Nat)

/-- JSON-decoded Python values: `None`, `bool`, numbers, `str`, `list`,
`dict`.  Dicts are association lists in insertion order with unique
keys. -/
inductive JValue where
  | null
  | bool (b : Bool)
  | num (n : JNum)
  | str (s : String)
  | arr (elems : List JValue)
  | obj (fields : List (String × JValue))

/-- Python truthiness of a JSON-decoded value (`None`, `False`, `0`,
`0.0`, `""`, `[]`, `{}` are falsy). -/
def truthy : JValue → Bool
  | .null => false
  | .bool b => b
  | .num (.int i) => i != 0
  | .num (.float n _) => n != 0
  | .str s => !s.isEmpty
  | .arr xs => !xs.isEmpty
  | .obj kvs => !kvs.isEmpty

/-- Python `a or b`: `a` if truthy, else `b`. -/
def pyOr (a b : JValue) : JValue := if truthy a then a else b

/-- `d.get(k)` without default: `some` the stored value when the key is
present (a stored JSON `null` is `some .null`), `none` when absent. -/
def getOptJ (kvs : List (String × JValue)) (k : String) : Option JValue :=
  (kvs.find? (fun kv => kv.1 == k)).map (fun kv => kv.2)

/-- `d.get(k)`: the stored value, or Python `None` when absent.  A
stored JSON `null` and an absent key both yield `.null`, exactly as
Python's `dict.get` yields `None` for both. -/
def getJ (kvs : List (String × JValue)) (k : String) : JValue :=
  (getOptJ kvs k).getD .null

/-- `isinstance(x, dict)`. -/
def isObj : JValue → Bool
  | .obj _ => true
  | _ => false

/-- `isinstance(x, list)`. -/
def isArr : JValue → Bool
  | .arr _ => true
  | _ => false

/-- `x is None`. -/
def isNull : JValue → Bool
  | .null => true
  | _ => false

/-- `isinstance(x, (int, float))`.  Python `bool` is a subclass of
`int`, so booleans count as numeric. -/
def isNumeric : JValue → Bool
  | .num _ => true
  | .bool _ => true
  | _ => false

/-- Numeric value of a numeric `JValue` as a fraction
(`True` is `1`, `False` is `0`). -/
def toFrac : JValue → Int × Nat
  | .num (.int i) => (i, 1)
  | .num (.float n d) => (n, d)
  | .bool b => (if b then 1 else 0, 1)
  | _ => (0, 1)

/-- Round the rational `f.1 / f.2` to the nearest integer, ties to even
— the rounding used by Python's fixed-point string formatting. -/
def roundHalfEven (f : Int × Nat) : Int :=
  let a := f.1
  let b : Int := (f.2 : Int)
  let q := Int.fdiv a b
  let r := a - q * b
  if 2 * r < b then q
  else if b < 2 * r then q + 1
  else if q % 2 = 0 then q else q + 1

/-- Left-pad a digit string with zeros to length `d`. -/
def padZeros (d : Nat) (s : String) : String :=
  String.mk (List.replicate (d - s.length) '0') ++ s

/-- Python `f"{x:.df}"`: fixed-point rendering of the rational
`f.1 / f.2` with `d` decimal places (round half to even). -/
def formatFixed (d : Nat) (f : Int × Nat) : String :=
  let m := roundHalfEven (f.1 * (10 : Int) ^ d, f.2)
  let sgn := if m < 0 then "-" else ""
  let n := m.natAbs
  if d = 0 then sgn ++ toString n
  else sgn ++ toString (n / 10 ^ d) ++ "." ++ padZeros d (toString (n % 10 ^ d))

/-- Smallest number of decimal digits (capped at 60) that renders the
fraction exactly. -/
def decimalsNeeded (f : Int × Nat) : Nat :=
  match (List.range 61).find? (fun d => (f.1 * (10 : Int) ^ d) % (f.2 : Int) == 0) with
  | some d => d
  | none => 60

/-- Python `str`/`repr` of a float: its exact decimal expansion with at
least one fractional digit (`str(3.0) = "3.0"`). -/
def pyStrFloat (f : Int × Nat) : String :=
  formatFixed (max 1 (decimalsNeeded f)) f

/-- Escape a string for Python single-quoted `repr` (backslash and
quote only; control characters are not modelled). -/
def reprEscape (s : String) : String :=
  String.join (s.data.map (fun c =>
    if c = '\\' then "\\\\"
    else if c = '\x27' then "\\\x27"
    else String.mk [c]))

mutual

/-- Python `repr` of a JSON-decoded value (`str` on containers shows
elements via `repr`). -/
def pyRepr : JValue → String
  | .null => "None"
  | .bool true => "True"
  | .bool false => "False"
  | .num (.int i) => toString i
  | .num (.float n d) => pyStrFloat (n, d)
  | .str s => "\x27" ++ reprEscape s ++ "\x27"
  | .arr xs => "[" ++ String.intercalate ", " (pyReprList xs) ++ "]"
  | .obj kvs => "\x7b" ++ String.intercalate ", " (pyReprObj kvs) ++ "\x7d"

/-- `repr` of each element of a list. -/
def pyReprList : List JValue → List String
  | [] => []
  | x :: xs => pyRepr x :: pyReprList xs

/-- `repr` of each `key: value` item of a dict. -/
def pyReprObj : List (String × JValue) → List String
  | [] => []
  | kv :: kvs => ("\x27" ++ reprEscape kv.1 ++ "\x27: " ++ pyRepr kv.2) :: pyReprObj kvs

end

/-- Python `str` of a JSON-decoded value. -/
def pyStr : JValue → String
  | .str s => s
  | v => pyRepr v

/-- Escape a string for JSON output (backslash and double quote only). -/
def jsonEscape (s : String) : String :=
  String.join (s.data.map (fun c =>
    if c = '\\' then "\\\\"
    else if c = '"' then "\\\""
    else String.mk [c]))

mutual

/-- Python `json.dumps` with default separators. -/
def jsonDumps : JValue → String
  | .null => "null"
  | .bool true => "true"
  | .bool false => "false"
  | .num (.int i) => toString i
  | .num (.float n d) => pyStrFloat (n, d)
  | .str s => "\"" ++ jsonEscape s ++ "\""
  | .arr xs => "[" ++ String.intercalate ", " (jsonDumpsList xs) ++ "]"
  | .obj kvs => "\x7b" ++ String.intercalate ", " (jsonDumpsObj kvs) ++ "\x7d"

/-- `json.dumps` of each element of a list. -/
def jsonDumpsList : List JValue → List String
  | [] => []
  | x :: xs => jsonDumps x :: jsonDumpsList xs

/-- `json.dumps` of each `"key": value` item of a dict. -/
def jsonDumpsObj : List (String × JValue) → List String
  | [] => []
  | kv :: kvs => ("\"" ++ jsonEscape kv.1 ++ "\": " ++ jsonDumps kv.2) :: jsonDumpsObj kvs

end

/-! ## Field extractors (`report.py` lines 77-138) -/

/-- `extract_status` (report.py:77): bot status text and open trade
count.  `state = payload.get("status") or payload.get("state") or
"unknown"`; `open_trades` is replaced by its length when it is a list,
and falls back to `payload.get("trades", "n/a")` when it is `None`. -/
def extract_status (status_payload : JValue) : String × String :=
  match status_payload with
  | .obj kvs =>
    let state := pyOr (getJ kvs "status") (pyOr (getJ kvs "state") (.str "unknown"))
    let ot0 := getJ kvs "open_trades"
    let ot1 := match ot0 with
      | .arr xs => JValue.num (.int xs.length)
      | v => v
    let ot2 := match ot1 with
      | .null => (getOptJ kvs "trades").getD (.str "n/a")
      | v => v
    (pyStr state, pyStr ot2)
  | x => (pyStr x, "n/a")

/-- `extract_profit` (report.py:91): absolute and percentage profit.
`abs = total or sum or abs or 0`, rendered `f"{abs:.8f}"` when numeric
else `str(abs)`; `pct = pct or percent or ratio`, rendered
`f"{pct*100:.2f}%"` when numeric else `str(pct or "n/a")`. -/
def extract_profit (profit_payload : JValue) : String × String :=
  match profit_payload with
  | .obj kvs =>
    let abs_profit :=
      pyOr (getJ kvs "profit_total")
        (pyOr (getJ kvs "profit_sum")
          (pyOr (getJ kvs "profit_abs") (.num (.int 0))))
    let pct_profit :=
      pyOr (getJ kvs "profit_pct")
        (pyOr (getJ kvs "profit_percent") (getJ kvs "profit_ratio"))
    let abs_string :=
      if isNumeric abs_profit then formatFixed 8 (toFrac abs_profit)
      else pyStr abs_profit
    let pct_string :=
      if isNumeric pct_profit then
        formatFixed 2 ((toFrac pct_profit).1 * 100, (toFrac pct_profit).2) ++ "%"
      else pyStr (pyOr pct_profit (.str "n/a"))
    (abs_string, pct_string)
  | x => (pyStr x, "n/a")

/-- `extract_balance` (report.py:115): concise balance summary.
`section = wallets or balance or total or payload`; when the section is
a dict, one `"CUR: amount"` part per item (`amount = total or available
or free` for dict values, the raw value otherwise), first five parts
joined by `", "`; otherwise (or when no parts) `json.dumps(section)`
truncated to 200 characters. -/
def extract_balance (balance_payload : JValue) : String :=
  match balance_payload with
  | .obj kvs =>
    let bsection :=
      pyOr (getJ kvs "wallets")
        (pyOr (getJ kvs "balance")
          (pyOr (getJ kvs "total") (.obj kvs)))
    match bsection with
    | .obj skvs =>
      let parts := skvs.map (fun cd =>
        match cd.2 with
        | .obj dkvs =>
          cd.1 ++ ": " ++
            pyStr (pyOr (getJ dkvs "total")
              (pyOr (getJ dkvs "available") (getJ dkvs "free")))
        | d => cd.1 ++ ": " ++ pyStr d)
      if parts.isEmpty then (jsonDumps (.obj skvs)).take 200
      else String.intercalate ", " (parts.take 5)
    | other => (jsonDumps other).take 200
  | x => pyStr x

/-! ## Pairlist formatter (`report.py` lines 183-212) -/

/-- Python `f"{i:2d}"`: the decimal digits of `i`, right-aligned to
width 2. -/
def padNum2 (i : Nat) : String :=
  if i < 10 then " " ++ toString i else toString i

/-- Python `s.ljust(w)`: pad on the right with spaces to width `w`. -/
def ljust (s : String) (w : Nat) : String :=
  s ++ String.mk (List.replicate (w - s.length) ' ')

/-- The row-building loop of the `columns` branch: append labels to the
current row, flushing a row whenever it reaches `cols` entries, and
flush the non-empty remainder at the end. -/
def chunkRows (cols : Nat) : List String → List String → List (List String)
  | row, [] => if row.isEmpty then [] else [row]
  | row, x :: xs =>
    let row2 := row ++ [x]
    if row2.length = cols then row2 :: chunkRows cols [] xs
    else chunkRows cols row2 xs

/-- `format_pairlist` (report.py:183).  Configuration (limit, style,
heading, columns, column width) is read from the environment in the
source; it is passed as arguments here, with the source's `max 1` /
`max 8` clamps on column count and width kept in the body.  Empty input
yields the empty string; `columns` style packs `f"{i:2d}. {p}"` labels,
left-justified to the column width, into rows of `cols` labels wrapped
in a ``` fence; any other style is the numbered list. -/
def format_pairlist (pairs : List String) (limit : Nat) (style heading : String)
    (cols colwidth : Nat) : String :=
  match pairs with
  | [] => ""
  | _ =>
    let shown := pairs.take limit
    if style = "columns" then
      let c := max 1 cols
      let w := max 8 colwidth
      let labels := shown.enum.map (fun ip => ljust (padNum2 (ip.1 + 1) ++ ". " ++ ip.2) w)
      let rows := chunkRows c [] labels
      let body := String.intercalate "\n" (rows.map String.join)
      heading ++ " (" ++ toString pairs.length ++ " total, showing " ++
        toString shown.length ++ "):" ++ "\n```\n" ++ body ++ "\n```"
    else
      String.intercalate "\n"
        ((heading ++ " (" ++ toString pairs.length ++ " total, showing " ++
          toString shown.length ++ "):") ::
          shown.enum.map (fun ip => padNum2 (ip.1 + 1) ++ ". " ++ ip.2))

/-! ## Whitelist fetch (`report.py` lines 157-180) -/

/-- The `for key in ("whitelist", "pairs", "pairlist")` scan: the value
of the first listed key that is present with a list value. -/
def firstListVal (kvs : List (String × JValue)) : List String → Option (List JValue)
  | [] => none
  | k :: ks =>
    match getOptJ kvs k with
    | some (.arr xs) => some xs
    | _ => firstListVal kvs ks

/-- The response-shape handling of `fetch_whitelist` (report.py:169):
a dict is scanned for a known list-valued key; failing that the code
runs `[str(x) for x in data.values()][0]` guarded by
`except Exception: return []` (so an empty dict yields `[]`, and a
non-empty dict yields the *string* `str(first value)`); a list is
mapped through `str`; anything else yields `[]`.  The result is a
`JValue` because the fallback branch produces a `str`, not a list. -/
def parse_whitelist_data (data : JValue) : JValue :=
  match data with
  | .obj kvs =>
    match firstListVal kvs ["whitelist", "pairs", "pairlist"] with
    | some xs => .arr (xs.map (fun x => .str (pyStr x)))
    | none =>
      match kvs with
      | [] => .arr []
      | kv :: _ => .str (pyStr kv.2)
  | .arr xs => .arr (xs.map (fun x => .str (pyStr x)))
  | _ => .arr []

/-- Observable network events of a run: a GET of a REST endpoint, or a
POST to the Telegram API. -/
inductive Ev where
  | netGet (endpoint : String)
  | netPost
deriving DecidableEq

/-- `fetch_whitelist` (report.py:157) with its network trace: try the
endpoints `whitelist`, `pairlist`, `pairs` in order (`fetchRes ep =
none` models a raised fetch failure), parse the first success, and
yield `[]` when every candidate fails. -/
def fetch_whitelist_ev (fetchRes : String → Option JValue) : List Ev × JValue :=
  match fetchRes "whitelist" with
  | some d => ([.netGet "whitelist"], parse_whitelist_data d)
  | none =>
  match fetchRes "pairlist" with
  | some d => ([.netGet "whitelist", .netGet "pairlist"], parse_whitelist_data d)
  | none =>
  match fetchRes "pairs" with
  | some d => ([.netGet "whitelist", .netGet "pairlist", .netGet "pairs"], parse_whitelist_data d)
  | none => ([.netGet "whitelist", .netGet "pairlist", .netGet "pairs"], .arr [])

/-- `fetch_whitelist` (report.py:157), value only. -/
def fetch_whitelist (fetchRes : String → Option JValue) : JValue :=
  (fetch_whitelist_ev fetchRes).2

/-! ## Telegram send, report cycle and main loop (`report.py` 141-290) -/

/-- Python `needle in hay` on strings: substring test. -/
def strContains (hay needle : String) : Bool :=
  hay.data.tails.any (fun t => needle.data.isPrefixOf t)

/-- The credential/configuration surface of the script (environment
variables in the source), plus the pairlist feature flag and its
formatting settings. -/
structure Config where
  apiUsername : String
  apiPassword : String
  telegramToken : String
  telegramChatId : String
  includePairlist : Bool
  plLimit : Nat
  plStyle : String
  plHeading : String
  plCols : Nat
  plColwidth : Nat

/-- One cycle's external world: the REST responses (`none` models a
raised request failure), whether the Telegram POST succeeds, and the
formatted UTC timestamp the cycle would stamp. -/
structure World where
  fetchRes : String → Option JValue
  postOk : Bool
  now : String

/-- `build_message` (report.py:141): the fixed-layout message body; the
pairlist block is appended (between blank-line separators) only when it
is truthy. -/
def build_message (ts status trades profit_abs profit_pct balance : String)
    (pairlist_block : Option String) : String :=
  let msg :=
    "Freqtrade Status Report\n" ++
    "Time: " ++ ts ++ "\n" ++
    "Status: " ++ status ++ "\n" ++
    "Open trades: " ++ trades ++ "\n" ++
    "Profit: " ++ profit_abs ++ " (" ++ profit_pct ++ ")\n" ++
    "Balance: " ++ balance ++ "\n"
  match pairlist_block with
  | some b => if b.isEmpty then msg else msg ++ "\n" ++ b ++ "\n"
  | none => msg

/-- `send_telegram_message` (report.py:215): raise (no network event)
when the bot token or chat id contains its placeholder literal;
otherwise POST (one network event) and fail when the POST fails. -/
def send_telegram_message (cfg : Config) ( _message : String) (postOk : Bool) :
    List Ev × Bool :=
  if strContains cfg.telegramToken "YOUR_TELEGRAM_BOT_TOKEN" then ([], false)
  else if strContains cfg.telegramChatId "YOUR_TELEGRAM_CHAT_ID" then ([], false)
  else ([.netPost], postOk)

/-- The iterable produced by the whitelist result inside `run_report`:
a list yields its (already stringified) elements, and the buggy string
fallback yields its characters (Python iterates a `str` as 1-character
strings). -/
def jToStrList : JValue → List String
  | .arr xs => xs.map pyStr
  | .str s => s.data.map (fun c => String.mk [c])
  | _ => []

/-- `run_report` (report.py:233): fetch `status`, `profit`, `balance`
(any failure aborts the cycle), optionally fetch and format the
pairlist, build the message, send it.  Returns the cycle's network
trace and whether the cycle succeeded. -/
def run_report (cfg : Config) (w : World) : List Ev × Bool :=
  match w.fetchRes "status" with
  | none => ([.netGet "status"], false)
  | some status_payload =>
  match w.fetchRes "profit" with
  | none => ([.netGet "status", .netGet "profit"], false)
  | some profit_payload =>
  match w.fetchRes "balance" with
  | none => ([.netGet "status", .netGet "profit", .netGet "balance"], false)
  | some balance_payload =>
    let st := extract_status status_payload
    let pr := extract_profit profit_payload
    let balance_info := extract_balance balance_payload
    let wres :=
      if cfg.includePairlist then
        let r := fetch_whitelist_ev w.fetchRes
        let pairs := jToStrList r.2
        (r.1,
          if pairs.isEmpty then none
          else some (format_pairlist pairs cfg.plLimit cfg.plStyle cfg.plHeading
            cfg.plCols cfg.plColwidth))
      else ([], none)
    let message := build_message w.now st.1 st.2 pr.1 pr.2 balance_info wres.2
    let sres := send_telegram_message cfg message w.postOk
    ([.netGet "status", .netGet "profit", .netGet "balance"] ++ wres.1 ++ sres.1, sres.2)

/-- The `while True` loop of `main` (report.py:263) over a stream of
per-cycle worlds.  On success: single-shot mode breaks with exit code
0, continuous mode sleeps and repeats.  On failure: the attempt counter
increments, single-shot mode exits 1 once it reaches `maxAttempts`,
and otherwise the same cycle is retried after a delay.  The result is
the accumulated network trace and `some code` when the process
terminates (`none`: still running when the stream ends). -/
def mainLoop (cfg : Config) (once : Bool) (maxAttempts : Nat) :
    Nat → List World → List Ev × Option Nat
  | _, [] => ([], none)
  | attempts, w :: ws =>
    let r := run_report cfg w
    if r.2 then
      if once then (r.1, some 0)
      else
        let res := mainLoop cfg once maxAttempts attempts ws
        (r.1 ++ res.1, res.2)
    else
      if once && decide (attempts + 1 ≥ maxAttempts) then (r.1, some 1)
      else
        let res := mainLoop cfg once maxAttempts (attempts + 1) ws
        (r.1 ++ res.1, res.2)

/-- `main` (report.py:252): placeholder API credentials are reported and
the process exits 1 before any network activity; otherwise the report
loop runs with the attempt counter at 0. -/
def mainRun (cfg : Config) (once : Bool) (maxAttempts : Nat) (worlds : List World) :
    List Ev × Option Nat :=
  if strContains cfg.apiUsername "YOUR_USERNAME" ||
      strContains cfg.apiPassword "YOUR_PASSWORD" then ([], some 1)
  else mainLoop cfg once maxAttempts 0 worlds

/-! ## Spec-side formulations

These follow the specification's wording, to be compared with the
definitions embedded from the source. -/

/-- The first truthy value of a list, defaulting to `dflt` when none is
truthy — the specification's "first truthy among ..." selection (which
is also the value of a Python `a or b or ... or dflt` chain). -/
def firstTruthyOrLast : List JValue → JValue → JValue
  | [], dflt => dflt
  | v :: vs, dflt => if truthy v then v else firstTruthyOrLast vs dflt

/-- Helper for `chunksOfSz`: `chunksGo c l i` distributes `l` into the
`i` remaining slots of the current run followed by fresh runs of `c`;
it returns the fill of the current run and the later runs.  (Structural
recursion on the list, so that concrete instances reduce.) -/
def chunksGo {α : Type} (c : Nat) : List α → Nat → List α × List (List α)
  | [], _ => ([], [])
  | x :: xs, 0 =>
    let r := chunksGo c xs (c - 1)
    ([], (x :: r.1) :: r.2)
  | x :: xs, i + 1 =>
    let r := chunksGo c xs i
    (x :: r.1, r.2)

/-- Direct chunking of a list into consecutive runs of `c` elements
(the last run may be shorter) — the specification's "items packed
left-to-right into rows of the configured column count". -/
def chunksOfSz {α : Type} (c : Nat) (l : List α) : List (List α) :=
  match l with
  | [] => []
  | x :: xs => (x :: (chunksGo c xs (c - 1)).1) :: (chunksGo c xs (c - 1)).2

/-! ## Helper lemmas -/

/-- One step of the row-building loop on an exhausted label list. -/
theorem chunkRows_nil_step (c : Nat) (row : List String) :
    chunkRows c row [] = if row.isEmpty then [] else [row] := by
  simp [chunkRows]

/-- One step of the row-building loop on a remaining label. -/
theorem chunkRows_cons_step (c : Nat) (row : List String) (x : String) (xs : List String) :
    chunkRows c row (x :: xs) =
      if (row ++ [x]).length = c then (row ++ [x]) :: chunkRows c [] xs
      else chunkRows c (row ++ [x]) xs := by
  rw [chunkRows]

/-- `chunksGo c l i` takes the next `i` elements into the current run
and chunks the remainder. -/
theorem chunksGo_spec {α : Type} (c : Nat) :
    ∀ (l : List α) (i : Nat), chunksGo c l i = (l.take i, chunksOfSz c (l.drop i)) := by
  intro l
  induction l with
  | nil => intro i; simp [chunksGo, chunksOfSz]
  | cons x xs ih =>
    intro i
    cases i with
    | zero => simp [chunksGo, chunksOfSz, ih]
    | succ i => simp [chunksGo, ih i]

/-- One step of the direct chunking on a non-empty list. -/
theorem chunksOfSz_cons_step {α : Type} (c : Nat) (x : α) (xs : List α) :
    chunksOfSz c (x :: xs) = (x :: xs.take (c - 1)) :: chunksOfSz c (xs.drop (c - 1)) := by
  show (x :: (chunksGo c xs (c - 1)).1) :: (chunksGo c xs (c - 1)).2 = _
  rw [chunksGo_spec]

/-- The row-building loop, started on a partially filled row strictly
below the column count, produces that row filled up to `c` followed by
the direct chunking of the remaining labels. -/
theorem chunkRows_go (c : Nat) (x : String) (xs : List String) :
    ∀ (acc : List String), acc.length + 1 ≤ c →
    chunkRows c acc (x :: xs) =
      (acc ++ (x :: xs).take (c - acc.length)) :: chunksOfSz c ((x :: xs).drop (c - acc.length)) := by
  induction xs generalizing x with
  | nil =>
    intro acc h
    obtain ⟨k, hk⟩ : ∃ k, c - acc.length = k + 1 := ⟨c - acc.length - 1, by omega⟩
    rw [hk, chunkRows_cons_step]
    simp only [List.take_succ_cons, List.take_nil, List.drop_succ_cons, List.drop_nil]
    by_cases hlen : (acc ++ [x]).length = c
    · rw [if_pos hlen, chunkRows_nil_step]
      simp [chunksOfSz]
    · rw [if_neg hlen, chunkRows_nil_step]
      simp [chunksOfSz]
  | cons y ys ih =>
    intro acc h
    rw [chunkRows_cons_step]
    by_cases hlen : (acc ++ [x]).length = c
    · have hc1 : c - acc.length = 1 := by
        simp only [List.length_append, List.length_singleton] at hlen; omega
      rw [if_pos hlen, hc1]
      simp only [List.take_succ_cons, List.take_zero, List.drop_succ_cons, List.drop_zero]
      have hrec : chunkRows c [] (y :: ys) = chunksOfSz c (y :: ys) := by
        obtain ⟨k, hk⟩ : ∃ k, c = k + 1 := ⟨c - 1, by omega⟩
        rw [ih y [] (by simp only [List.length_nil]; omega)]
        simp only [List.nil_append, List.length_nil, Nat.sub_zero, hk,
          List.take_succ_cons, List.drop_succ_cons, chunksOfSz_cons_step]
        simp
      rw [hrec]
    · have h2 : (acc ++ [x]).length + 1 ≤ c := by
        simp only [List.length_append, List.length_singleton] at hlen ⊢; omega
      rw [if_neg hlen, ih y (acc ++ [x]) h2]
      obtain ⟨k, hk⟩ : ∃ k, c - acc.length = k + 1 := ⟨c - acc.length - 1, by omega⟩
      have hk2 : c - (acc ++ [x]).length = k := by
        simp only [List.length_append, List.length_singleton]; omega
      rw [hk2, hk]
      simp only [List.take_succ_cons, List.drop_succ_cons]
      simp

/-- Started on an empty row, the row-building loop is the direct
chunking, for any positive column count. -/
theorem chunkRows_eq (c : Nat) (hc : 1 ≤ c) (l : List String) :
    chunkRows c [] l = chunksOfSz c l := by
  cases l with
  | nil => simp [chunkRows_nil_step, chunksOfSz]
  | cons x xs =>
    obtain ⟨k, hk⟩ : ∃ k, c = k + 1 := ⟨c - 1, by omega⟩
    rw [chunkRows_go c x xs [] (by simp only [List.length_nil]; omega)]
    simp only [List.nil_append, List.length_nil, Nat.sub_zero, hk,
      List.take_succ_cons, List.drop_succ_cons, chunksOfSz_cons_step]
    simp

/-- One step of the main loop on a remaining world. -/
theorem mainLoop_cons_step (cfg : Config) (once : Bool) (maxA a : Nat)
    (w : World) (ws : List World) :
    mainLoop cfg once maxA a (w :: ws) =
      if (run_report cfg w).2 then
        if once then ((run_report cfg w).1, some 0)
        else ((run_report cfg w).1 ++ (mainLoop cfg once maxA a ws).1,
          (mainLoop cfg once maxA a ws).2)
      else
        if once && decide (a + 1 ≥ maxA) then ((run_report cfg w).1, some 1)
        else ((run_report cfg w).1 ++ (mainLoop cfg once maxA (a + 1) ws).1,
          (mainLoop cfg once maxA (a + 1) ws).2) := by
  rw [mainLoop]

/-- In continuous mode the loop never terminates: no world stream
yields an exit code. -/
theorem mainLoop_continuous (cfg : Config) (maxA : Nat) :
    ∀ (ws : List World) (a : Nat), (mainLoop cfg false maxA a ws).2 = none := by
  intro ws
  induction ws with
  | nil => intro a; rfl
  | cons w ws ih =>
    intro a
    rw [mainLoop_cons_step]
    cases hr : (run_report cfg w).2 <;>
      simp [hr, ih]

/-- In single-shot mode, fewer failing cycles than the remaining
attempt budget leave the loop still running. -/
theorem mainLoop_bad_none (cfg : Config) (bad : World) (maxA : Nat)
    (hb : (run_report cfg bad).2 = false) :
    ∀ (k a : Nat), a + k < maxA →
    (mainLoop cfg true maxA a (List.replicate k bad)).2 = none := by
  intro k
  induction k with
  | zero => intro a _; rfl
  | succ k ih =>
    intro a h
    rw [List.replicate_succ, mainLoop_cons_step]
    have hcond : (true && decide (a + 1 ≥ maxA)) = false := by
      simp only [Bool.true_and, decide_eq_false_iff_not]; omega
    simp only [hb, Bool.false_eq_true, if_false, hcond]
    exact ih (a + 1) (by omega)

/-- In single-shot mode, as soon as the failure count reaches the
maximum, the loop exits 1 having executed exactly those failing cycles:
the result (trace included) is independent of any further worlds. -/
theorem mainLoop_bad_exit (cfg : Config) (bad : World) (maxA : Nat)
    (hb : (run_report cfg bad).2 = false) :
    ∀ (k a : Nat) (rest : List World), 1 ≤ k → a + k = maxA →
    mainLoop cfg true maxA a (List.replicate k bad ++ rest) =
      ((List.replicate k (run_report cfg bad).1).flatten, some 1) := by
  intro k
  induction k with
  | zero => intro a rest h1 _; omega
  | succ k ih =>
    intro a rest _ h2
    rw [List.replicate_succ, List.cons_append, mainLoop_cons_step]
    cases k with
    | zero =>
      have hcond : (true && decide (a + 1 ≥ maxA)) = true := by
        simp only [Bool.true_and, decide_eq_true_eq]; omega
      simp [hb, hcond]
    | succ k' =>
      have hcond : (true && decide (a + 1 ≥ maxA)) = false := by
        simp only [Bool.true_and, decide_eq_false_iff_not]; omega
      simp only [hb, Bool.false_eq_true, if_false, hcond,
        ih (a + 1) rest (by omega) (by omega)]
      simp [List.replicate_succ]

/-- In single-shot mode, a success after fewer failures than the
attempt budget exits the whole run with code 0. -/
theorem mainLoop_good (cfg : Config) (bad good : World) (maxA : Nat)
    (hb : (run_report cfg bad).2 = false) (hg : (run_report cfg good).2 = true) :
    ∀ (k a : Nat) (rest : List World), a + k < maxA →
    (mainLoop cfg true maxA a (List.replicate k bad ++ good :: rest)).2 = some 0 := by
  intro k
  induction k with
  | zero =>
    intro a rest _
    rw [List.replicate_zero, List.nil_append, mainLoop_cons_step]
    simp [hg]
  | succ k ih =>
    intro a rest h
    rw [List.replicate_succ, List.cons_append, mainLoop_cons_step]
    have hcond : (true && decide (a + 1 ≥ maxA)) = false := by
      simp only [Bool.true_and, decide_eq_false_iff_not]; omega
    simp only [hb, Bool.false_eq_true, if_false, hcond]
    exact ih (a + 1) rest (by omega)

/-- Python `a or b or dflt` is the spec's first-truthy selection over
two candidates. -/
theorem firstTruthyOrLast_two (a b dflt : JValue) :
    firstTruthyOrLast [a, b] dflt = pyOr a (pyOr b dflt) := rfl

/-- Python `a or b or c or dflt` is the spec's first-truthy selection
over three candidates. -/
theorem firstTruthyOrLast_three (a b c dflt : JValue) :
    firstTruthyOrLast [a, b, c] dflt = pyOr a (pyOr b (pyOr c dflt)) := rfl

/-- `str(v or "n/a")` is `str(v)` for truthy `v` and `"n/a"` otherwise. -/
theorem pyStr_pyOr_na (v : JValue) :
    pyStr (pyOr v (.str "n/a")) = if truthy v then pyStr v else "n/a" := by
  by_cases h : truthy v <;> simp [pyOr, h, pyStr]

/-! ## Claims -/

/-- C9: each extractor is a total Lean function of the JSON-decoded
payload (totality is witnessed by the definitions themselves), and for
every non-object input `x` it degrades to the stringified payload:
`extract_status x = (str(x), "n/a")`, `extract_profit x = (str(x),
"n/a")` and `extract_balance x = str(x)` (report.py:79-80, 93-94,
117-118). -/
theorem c9_extractors_total (x : JValue) (hx : isObj x = false) :
    extract_status x = (pyStr x, "n/a") ∧
    extract_profit x = (pyStr x, "n/a") ∧
    extract_balance x = pyStr x := by
  cases x <;> simp_all [isObj, extract_status, extract_profit, extract_balance]

/-- Witness for C9 at the non-object input `"hello"`. -/
theorem c9_extractors_total_witness :
    extract_status (.str "hello") = ("hello", "n/a") ∧
    extract_profit (.str "hello") = ("hello", "n/a") ∧
    extract_balance (.str "hello") = "hello" :=
  c9_extractors_total (.str "hello") rfl

/-- C10: the `trades` fallback fires only when `open_trades` is absent
or `None`; a present non-null `open_trades` (even a falsy `0` or `[]`)
is reported itself — a list via its length — and the `trades` value is
never consulted (the right-hand side does not mention `trades`;
report.py:83-88). -/
theorem c10_open_trades (kvs : List (String × JValue)) (v : JValue)
    (hv : getOptJ kvs "open_trades" = some v) (hnn : isNull v = false) :
    (extract_status (.obj kvs)).2 =
      pyStr (match v with
        | .arr xs => JValue.num (.int xs.length)
        | w => w) := by
  have hgj : getJ kvs "open_trades" = v := by simp [getJ, hv]
  cases v
  case null => simp [isNull] at hnn
  all_goals simp_all [extract_status, isNull]

/-- Witness for C10: a present empty `open_trades` list is reported as
`"0"` even though `trades` is `7`. -/
theorem c10_open_trades_witness :
    (extract_status (.obj [("open_trades", .arr []), ("trades", .num (.int 7))])).2 = "0" :=
  (c10_open_trades [("open_trades", .arr []), ("trades", .num (.int 7))]
    (.arr []) rfl rfl).trans (by decide)

/-- C5 counterexample: in `{status: ""}` the key `status` is *present*,
so the claim's "state = the first present of keys status, state"
predicts the state text `""`; the code's truthiness chain
(report.py:82) skips the falsy value and yields `"unknown"`. -/
theorem c5_counterexample :
    extract_status (.obj [("status", .str "")]) = ("unknown", "n/a") ∧
    ("unknown" : String) ≠ "" := ⟨by decide, by decide⟩

/-- C5 amended: state is the first *truthy* (not merely present) of
`status`, `state`, else `"unknown"`; the trade count is `open_trades`
(a list via its length, anything else via its value), falling back to
`trades` (default `"n/a"`) exactly when `open_trades` is absent or
null; all outputs stringified.  The claim's example
`extract_status({status:"running", open_trades:[1,2,3]}) =
("running", "3")` holds. -/
theorem c5_amended :
    (∀ kvs : List (String × JValue),
      extract_status (.obj kvs) =
        (pyStr (firstTruthyOrLast [getJ kvs "status", getJ kvs "state"] (.str "unknown")),
         match getJ kvs "open_trades" with
         | .arr xs => pyStr (.num (.int xs.length))
         | .null => pyStr ((getOptJ kvs "trades").getD (.str "n/a"))
         | v => pyStr v)) ∧
    extract_status (.obj [("status", .str "running"),
        ("open_trades", .arr [.num (.int 1), .num (.int 2), .num (.int 3)])]) =
      ("running", "3") := by
  refine ⟨?_, by decide⟩
  intro kvs
  simp only [extract_status, firstTruthyOrLast_two, Prod.mk.injEq, true_and]
  cases hot : getJ kvs "open_trades" <;> simp

/-- C3 counterexample: in `{profit_pct: "high"}` no truthy numeric
percentage candidate exists, so the claim predicts percentage text
`"n/a"`; the code (report.py:110) takes the truthy non-numeric chain
value and renders `str("high" or "n/a") = "high"`. -/
theorem c3_counterexample :
    extract_profit (.obj [("profit_pct", .str "high")]) = ("0.00000000", "high") ∧
    ("high" : String) ≠ "n/a" := ⟨by decide, by decide⟩

/-- C3 amended: absolute text is the first *truthy* of `profit_total`,
`profit_sum`, `profit_abs` (defaulting to `0`), 8-decimal fixed-point
when numeric else stringified; percentage text is the first truthy of
`profit_pct`, `profit_percent`, `profit_ratio` (the chain's last value
when all are falsy), rendered `value*100` with 2 decimals plus `%` when
numeric, else *its stringification when truthy* and `"n/a"` only when
falsy.  The claim's two examples hold. -/
theorem c3_amended :
    (∀ kvs : List (String × JValue),
      extract_profit (.obj kvs) =
        ((fun a => if isNumeric a then formatFixed 8 (toFrac a) else pyStr a)
          (firstTruthyOrLast
            [getJ kvs "profit_total", getJ kvs "profit_sum", getJ kvs "profit_abs"]
            (.num (.int 0))),
         (fun p => if isNumeric p then
              formatFixed 2 ((toFrac p).1 * 100, (toFrac p).2) ++ "%"
            else if truthy p then pyStr p else "n/a")
          (firstTruthyOrLast [getJ kvs "profit_pct", getJ kvs "profit_percent"]
            (getJ kvs "profit_ratio")))) ∧
    extract_profit (.obj [("profit_total", .num (.float 123456789 (10 ^ 7)))]) =
      ("12.34567890", "n/a") ∧
    extract_profit (.obj [("profit_pct", .num (.float 537 (10 ^ 4)))]) =
      ("0.00000000", "5.37%") := by
  refine ⟨?_, by decide, by decide⟩
  intro kvs
  simp only [extract_profit, firstTruthyOrLast_three, firstTruthyOrLast_two,
    Prod.mk.injEq, true_and, pyStr_pyOr_na]

/-- C4 counterexample: in `{wallets: {}}` the key `wallets` is present,
so the claim's "first present of keys wallets, balance, total" picks
the empty dict as the section, which produces no entries, and the claim
then predicts the JSON fallback `"{}"`; the code's truthiness chain
(report.py:120-124) skips the falsy empty dict, takes the payload
itself as the section, and returns `"wallets: None"`. -/
theorem c4_counterexample :
    extract_balance (.obj [("wallets", .obj [])]) = "wallets: None" ∧
    ("wallets: None" : String) ≠ "\x7b\x7d" := ⟨by decide, by decide⟩

/-- C4 amended: the nested section is the first *truthy* (not merely
present) of `wallets`, `balance`, `total`, defaulting to the payload
itself; an object section yields one `"CUR: amount"` entry per item
(amount = the first truthy of `total`, `available`, `free` of a dict
value, the raw value otherwise), joined by `", "` and truncated to the
first 5 entries; when the section is not an object, or is an empty
object (the only way no entries are produced), the JSON string
representation truncated to 200 characters. -/
theorem c4_amended (kvs : List (String × JValue)) :
    extract_balance (.obj kvs) =
      (match firstTruthyOrLast [getJ kvs "wallets", getJ kvs "balance", getJ kvs "total"]
          (.obj kvs) with
       | .obj skvs =>
         let entries := skvs.map (fun cd =>
           cd.1 ++ ": " ++ pyStr (match cd.2 with
             | .obj dkvs => firstTruthyOrLast [getJ dkvs "total", getJ dkvs "available"]
                 (getJ dkvs "free")
             | d => d))
         if entries.isEmpty then (jsonDumps (.obj skvs)).take 200
         else String.intercalate ", " (entries.take 5)
       | v => (jsonDumps v).take 200) := by
  have hmap : ∀ skvs : List (String × JValue),
      skvs.map (fun cd =>
        match cd.2 with
        | JValue.obj dkvs =>
          cd.1 ++ ": " ++
            pyStr (pyOr (getJ dkvs "total")
              (pyOr (getJ dkvs "available") (getJ dkvs "free")))
        | d => cd.1 ++ ": " ++ pyStr d) =
      skvs.map (fun cd =>
        cd.1 ++ ": " ++ pyStr (match cd.2 with
          | JValue.obj dkvs =>
            pyOr (getJ dkvs "total") (pyOr (getJ dkvs "available") (getJ dkvs "free"))
          | d => d)) := by
    intro skvs
    apply List.map_congr_left
    intro cd _
    rcases cd with ⟨k, v⟩
    cases v <;> rfl
  simp only [extract_balance, firstTruthyOrLast_three, firstTruthyOrLast_two, hmap]

/-- C7: on an empty sequence `format_pairlist` returns the empty string
regardless of style; on a non-empty sequence in `list` style it returns
the heading `"<heading> (<total> total, showing <shown>):"` with
`total` the true input length and `shown = min limit total`, followed
by exactly one `"<rank>. <pair>"` line per shown item, ranks 1-indexed
and right-aligned to 2 digits, over only the first `limit` items
(report.py:186, 209-212). -/
theorem c7_list_style :
    (∀ (limit : Nat) (style heading : String) (cols colwidth : Nat),
      format_pairlist [] limit style heading cols colwidth = "") ∧
    (∀ (pairs : List String) (limit : Nat) (heading : String) (cols colwidth : Nat),
      pairs ≠ [] →
      format_pairlist pairs limit "list" heading cols colwidth =
        String.intercalate "\n"
          ((heading ++ " (" ++ toString pairs.length ++ " total, showing " ++
            toString (min limit pairs.length) ++ "):") ::
            ((List.range (min limit pairs.length)).zip (pairs.take limit)).map
              (fun ip => padNum2 (ip.1 + 1) ++ ". " ++ ip.2))) := by
  constructor
  · intro limit style heading cols colwidth; rfl
  · intro pairs limit heading cols colwidth hne
    match pairs, hne with
    | p :: ps, _ =>
      simp only [format_pairlist]
      rw [if_neg (by decide : ¬ ("list" : String) = "columns"),
        List.enum_eq_zip_range, List.length_take]

/-- Witness for C7: the empty case, and the spec's example
`formatPairlist(["BTC/USDT","ETH/USDT"], limit=1, style="list")` with
heading showing "2 total, showing 1" and one numbered line. -/
theorem c7_list_style_witness :
    format_pairlist [] 25 "columns" "Pairlist" 3 18 = "" ∧
    format_pairlist ["BTC/USDT", "ETH/USDT"] 1 "list" "Pairlist" 3 18 =
      "Pairlist (2 total, showing 1):\n 1. BTC/USDT" :=
  ⟨c7_list_style.1 25 "columns" "Pairlist" 3 18,
    (c7_list_style.2 ["BTC/USDT", "ETH/USDT"] 1 "Pairlist" 3 18 (by decide)).trans
      (by decide)⟩

/-- C8 counterexample: the claim says each label is *left-padded* to
the column width, which at width 18 would render the label `" 1. A"` as
`"              1. A"` (13 spaces on the left); the code uses
`label.ljust(colwidth)` (report.py:200), which pads on the *right*,
producing `" 1. A             "`. -/
theorem c8_counterexample :
    format_pairlist ["A"] 25 "columns" "P" 3 18 =
      "P (1 total, showing 1):\n```\n 1. A             \n```" ∧
    ("P (1 total, showing 1):\n```\n 1. A             \n```" : String) ≠
      "P (1 total, showing 1):\n```\n              1. A\n```" := ⟨by decide, by decide⟩

/-- C8 amended: `columns` style produces the same heading as `list`
style, then packs the shown items left-to-right into rows of the
configured column count (at least 1), each `"<rank>. <pair>"` label
*left-justified* (space-padded on the right) to the column width
(clamped to a minimum of 8), rows joined by newline, the whole body
wrapped in a fixed-width ``` fence (report.py:192-207). -/
theorem c8_amended (pairs : List String) (limit : Nat) (heading : String)
    (cols colwidth : Nat) (hne : pairs ≠ []) :
    format_pairlist pairs limit "columns" heading cols colwidth =
      heading ++ " (" ++ toString pairs.length ++ " total, showing " ++
        toString (min limit pairs.length) ++ "):" ++ "\n```\n" ++
        String.intercalate "\n"
          ((chunksOfSz (max 1 cols)
            (((List.range (min limit pairs.length)).zip (pairs.take limit)).map
              (fun ip => ljust (padNum2 (ip.1 + 1) ++ ". " ++ ip.2) (max 8 colwidth)))).map
            String.join) ++ "\n```" := by
  match pairs, hne with
  | p :: ps, _ =>
    simp only [format_pairlist, if_true]
    rw [chunkRows_eq _ (Nat.le_max_left 1 cols),
      List.enum_eq_zip_range, List.length_take]

/-- Witness for C8 at three pairs in two columns of width 8. -/
theorem c8_amended_witness :
    format_pairlist ["A", "B", "C"] 25 "columns" "P" 2 8 =
      "P (3 total, showing 3):\n```\n 1. A    2. B   \n 3. C   \n```" :=
  (c8_amended ["A", "B", "C"] 25 "P" 2 8 (by decide)).trans (by decide)

/-- C6, code evaluated at the failing input: with the `whitelist`
endpoint returning `{"items": ["BTC/USDT", "ETH/USDT"]}` — an object
with no known list-valued key whose first value is the pair collection
— `fetch_whitelist` returns the single *string*
`str(["BTC/USDT", "ETH/USDT"])`, not a sequence of pair strings:
`[str(x) for x in data.values()][0]` (report.py:175) stringifies the
first value instead of returning the first value collection,
contradicting the function's declared return type `list[str]` and the
comment above that line. -/
theorem c6_code_bug_eval :
    fetch_whitelist (fun ep =>
        if ep = "whitelist" then
          some (.obj [("items", .arr [.str "BTC/USDT", .str "ETH/USDT"])])
        else none) =
      .str "[\x27BTC/USDT\x27, \x27ETH/USDT\x27]" ∧
    isArr (fetch_whitelist (fun ep =>
        if ep = "whitelist" then
          some (.obj [("items", .arr [.str "BTC/USDT", .str "ETH/USDT"])])
        else none)) = false := ⟨rfl, rfl⟩

/-- C1 counterexample: a run in which a placeholder credential (the
Telegram bot token) is detected but the process does *not* exit with
code 1 before any network activity: in single-shot mode with one
attempt the three REST fetches happen first and the exit code 1 comes
only afterwards, and in continuous mode the run does not terminate at
all. -/
theorem c1_counterexample :
    strContains "YOUR_TELEGRAM_BOT_TOKEN" "YOUR_TELEGRAM_BOT_TOKEN" = true ∧
    mainRun ⟨"user", "pass", "YOUR_TELEGRAM_BOT_TOKEN", "42", false, 25, "list", "Pairlist", 3, 18⟩
        true 1 [⟨fun _ => some (.obj []), true, "2026-01-01 00:00:00 UTC"⟩] =
      ([.netGet "status", .netGet "profit", .netGet "balance"], some 1) ∧
    (mainRun ⟨"user", "pass", "YOUR_TELEGRAM_BOT_TOKEN", "42", false, 25, "list", "Pairlist", 3, 18⟩
        false 1 [⟨fun _ => some (.obj []), true, "2026-01-01 00:00:00 UTC"⟩]).2 = none :=
  ⟨by decide, by decide, by decide⟩

/-- C1 amended: placeholder *API* credentials are reported and the
process exits 1 with no network activity at all; a placeholder
messaging bot token or chat identifier makes `sendMessage` reject
before its own network call (no POST event, failed send), but that
rejection happens inside the report cycle — after the cycle's fetches —
and is handled by the cycle retry logic rather than by an immediate
exit (report.py:257-259, 217-220). -/
theorem c1_amended :
    (∀ (cfg : Config) (once : Bool) (maxAttempts : Nat) (worlds : List World),
      (strContains cfg.apiUsername "YOUR_USERNAME" ||
        strContains cfg.apiPassword "YOUR_PASSWORD") = true →
      mainRun cfg once maxAttempts worlds = ([], some 1)) ∧
    (∀ (cfg : Config) (message : String) (postOk : Bool),
      (strContains cfg.telegramToken "YOUR_TELEGRAM_BOT_TOKEN" = true ∨
        strContains cfg.telegramChatId "YOUR_TELEGRAM_CHAT_ID" = true) →
      send_telegram_message cfg message postOk = ([], false)) := by
  constructor
  · intro cfg once maxAttempts worlds h
    simp [mainRun, h]
  · intro cfg message postOk h
    rcases h with h | h
    · simp [send_telegram_message, h]
    · by_cases ht : strContains cfg.telegramToken "YOUR_TELEGRAM_BOT_TOKEN" <;>
        simp [send_telegram_message, ht, h]

/-- Witness for C1 amended: a placeholder API username exits 1 with an
empty network trace; a placeholder bot token makes the send fail with
no POST event. -/
theorem c1_amended_witness :
    mainRun ⟨"YOUR_USERNAME", "pass", "tok", "42", false, 25, "list", "Pairlist", 3, 18⟩
        true 6 [] = ([], some 1) ∧
    send_telegram_message
        ⟨"user", "pass", "YOUR_TELEGRAM_BOT_TOKEN", "42", false, 25, "list", "Pairlist", 3, 18⟩
        "msg" true = ([], false) :=
  ⟨c1_amended.1 _ true 6 [] (by decide),
   c1_amended.2 _ "msg" true (Or.inl (by decide))⟩

/-- C2: with a positive configured maximum and non-placeholder API
credentials, over every sequence of cycle outcomes: a success after at
most `maxAttempts - 1` consecutive failures exits the single-shot run
with code 0; `maxAttempts` consecutive failures exit with code 1 and
the whole result (network trace included) is independent of any further
worlds (exactly that many attempts, no more); fewer failing cycles
alone never terminate (no fewer); and in continuous mode no outcome
sequence terminates the process (report.py:263-290). -/
theorem c2_retry_loop (cfg : Config) (bad good : World) (maxAttempts : Nat)
    (hcfg : (strContains cfg.apiUsername "YOUR_USERNAME" ||
      strContains cfg.apiPassword "YOUR_PASSWORD") = false)
    (hb : (run_report cfg bad).2 = false)
    (hg : (run_report cfg good).2 = true)
    (hpos : 1 ≤ maxAttempts) :
    (∀ (k : Nat) (rest : List World), k < maxAttempts →
      (mainRun cfg true maxAttempts (List.replicate k bad ++ good :: rest)).2 = some 0) ∧
    (∀ rest : List World,
      mainRun cfg true maxAttempts (List.replicate maxAttempts bad ++ rest) =
        mainRun cfg true maxAttempts (List.replicate maxAttempts bad) ∧
      (mainRun cfg true maxAttempts (List.replicate maxAttempts bad)).2 = some 1) ∧
    (∀ k : Nat, k < maxAttempts →
      (mainRun cfg true maxAttempts (List.replicate k bad)).2 = none) ∧
    (∀ worlds : List World, (mainRun cfg false maxAttempts worlds).2 = none) := by
  have hmain : ∀ (once : Bool) (ws : List World),
      mainRun cfg once maxAttempts ws = mainLoop cfg once maxAttempts 0 ws := by
    intro once ws
    simp [mainRun, hcfg]
  have hexit : ∀ r, mainLoop cfg true maxAttempts 0 (List.replicate maxAttempts bad ++ r) =
      ((List.replicate maxAttempts (run_report cfg bad).1).flatten, some 1) :=
    fun r => mainLoop_bad_exit cfg bad maxAttempts hb maxAttempts 0 r hpos (by omega)
  have hplain : mainLoop cfg true maxAttempts 0 (List.replicate maxAttempts bad) =
      ((List.replicate maxAttempts (run_report cfg bad).1).flatten, some 1) := by
    have h := hexit []
    simpa using h
  refine ⟨?_, ?_, ?_, ?_⟩
  · intro k rest hk
    rw [hmain]
    exact mainLoop_good cfg bad good maxAttempts hb hg k 0 rest (by omega)
  · intro rest
    refine ⟨?_, ?_⟩
    · rw [hmain, hmain, hexit rest, hplain]
    · rw [hmain, hplain]
  · intro k hk
    rw [hmain]
    exact mainLoop_bad_none cfg bad maxAttempts hb k 0 (by omega)
  · intro worlds
    rw [hmain]
    exact mainLoop_continuous cfg maxAttempts worlds 0

/-- Witness for C2 with `maxAttempts = 3`: two failures then a success
exit 0; three failures exit 1; two failures alone leave the run alive;
continuous mode survives five failures. -/
theorem c2_retry_loop_witness :
    (mainRun ⟨"user", "pass", "tok", "42", false, 25, "list", "Pairlist", 3, 18⟩ true 3
      (List.replicate 2 ⟨fun _ => none, true, "t"⟩ ++
        ⟨fun _ => some (.obj []), true, "t"⟩ :: [])).2 = some 0 ∧
    (mainRun ⟨"user", "pass", "tok", "42", false, 25, "list", "Pairlist", 3, 18⟩ true 3
      (List.replicate 3 ⟨fun _ => none, true, "t"⟩)).2 = some 1 ∧
    (mainRun ⟨"user", "pass", "tok", "42", false, 25, "list", "Pairlist", 3, 18⟩ true 3
      (List.replicate 2 ⟨fun _ => none, true, "t"⟩)).2 = none ∧
    (mainRun ⟨"user", "pass", "tok", "42", false, 25, "list", "Pairlist", 3, 18⟩ false 3
      (List.replicate 5 ⟨fun _ => none, true, "t"⟩)).2 = none :=
  ⟨(c2_retry_loop _ _ _ 3 (by decide) (by decide) (by decide) (by decide)).1 2 [] (by decide),
   ((c2_retry_loop _ ⟨fun _ => none, true, "t"⟩ ⟨fun _ => some (.obj []), true, "t"⟩ 3
      (by decide) (by decide) (by decide) (by decide)).2.1 []).2,
   (c2_retry_loop _ ⟨fun _ => none, true, "t"⟩ ⟨fun _ => some (.obj []), true, "t"⟩ 3
      (by decide) (by decide) (by decide) (by decide)).2.2.1 2 (by decide),
   (c2_retry_loop _ ⟨fun _ => none, true, "t"⟩ ⟨fun _ => some (.obj []), true, "t"⟩ 3
      (by decide) (by decide) (by decide) (by decide)).2.2.2
     (List.replicate 5 ⟨fun _ => none, true, "t"⟩)⟩

end FreScan
